import Mathlib

/-!
# Verification of the uringblk block-driver core (kvm_db repository)

Shallow embedding of `src/driver/uringblk_main.c` and
`src/driver/uringblk_driver.h`: the virtual storage backend, the
latency-percentile computation, the URING_CMD admin handlers and their
dispatcher, and the block-request dispatcher `uringblk_queue_rq`.

Modelling conventions:
* C byte buffers become `List Nat` (one entry per byte).
* Machine integers become `Nat`/`Int`; where C truncates (assignment into a
  narrower field, `~` on `u64`) the truncation is written out with `% 2 ^ w`
  or `2 ^ 64 - 1 - m`.
* Fallible C functions returning `int` (negative errno or a byte count)
  become functions returning `Int` together with their effect on the
  modelled state; memory staging (`copy_to_user` / `copy_from_user`) is
  assumed to succeed, so the `-EFAULT` paths are not modelled.
-/

namespace Uringblk

/-! ## Error codes (Linux errno values used by the driver) -/

def EINVAL : Int := 22

def EAGAIN : Int := 11

def EOPNOTSUPP : Int := 95

def ECANCELED : Int := 125

def EIOCBQUEUED : Int := 529

/-! ## Statistics (struct uringblk_stats, uringblk_driver.h:110-126) -/

/-- `struct uringblk_stats`: eleven `u64` counters followed by four `u32`
latency-percentile fields.  Used both for the device's live counters
(`dev->stats`) and for the GET_STATS response. -/
structure UringblkStats where
  read_ops : Nat
  write_ops : Nat
  flush_ops : Nat
  discard_ops : Nat
  read_sectors : Nat
  write_sectors : Nat
  read_bytes : Nat
  write_bytes : Nat
  queue_full_events : Nat
  media_errors : Nat
  retries : Nat
  p50_read_latency_us : Nat
  p99_read_latency_us : Nat
  p50_write_latency_us : Nat
  p99_write_latency_us : Nat
  deriving Repr, DecidableEq

/-! ## Virtual backend (uringblk_main.c:860-938)

`private_data` is a `vzalloc`ed buffer of `capacity` bytes; we model it as
`data : List Nat` with `capacity` kept as a separate field exactly as in
`struct uringblk_backend`.  `virtual_backend_init` establishes
`data.length = capacity`. -/

structure VirtualBackend where
  data : List Nat
  capacity : Nat
  deriving Repr, DecidableEq

/-- `virtual_backend_init` (uringblk_main.c:860): rejects zero capacity,
otherwise allocates a zero-filled buffer of `capacity` bytes. -/
def virtual_backend_init (capacity : Nat) : Option VirtualBackend :=
  if capacity = 0 then none
  else some { data := List.replicate capacity 0, capacity := capacity }

/-- `memcpy(data + pos, buf, buf.length)` on a byte buffer. -/
def storeBytes (data : List Nat) (pos : Nat) (buf : List Nat) : List Nat :=
  data.take pos ++ buf ++ data.drop (pos + buf.length)

/-- `virtual_backend_read` (uringblk_main.c:901-910): fails with `-EINVAL`
when `pos + len > capacity`, otherwise returns the `len` bytes at `pos`. -/
def virtual_backend_read (b : VirtualBackend) (pos len : Nat) :
    Except Int (List Nat) :=
  if pos + len > b.capacity then .error (-EINVAL)
  else .ok ((b.data.drop pos).take len)

/-- `virtual_backend_write` (uringblk_main.c:912-921): fails with `-EINVAL`
when `pos + len > capacity`, otherwise copies `buf` into the buffer at
`pos`. -/
def virtual_backend_write (b : VirtualBackend) (pos : Nat) (buf : List Nat) :
    Except Int VirtualBackend :=
  if pos + buf.length > b.capacity then .error (-EINVAL)
  else .ok { data := storeBytes b.data pos buf, capacity := b.capacity }

/-- `virtual_backend_flush` (uringblk_main.c:923-927): a no-op returning 0. -/
def virtual_backend_flush (_b : VirtualBackend) : Int := 0

/-- `virtual_backend_discard` (uringblk_main.c:929-938): fails with `-EINVAL`
when `pos + len > capacity`, otherwise zero-fills `len` bytes at `pos`
(`memset(data + pos, 0, len)`). -/
def virtual_backend_discard (b : VirtualBackend) (pos len : Nat) :
    Except Int VirtualBackend :=
  if pos + len > b.capacity then .error (-EINVAL)
  else .ok { data := storeBytes b.data pos (List.replicate len 0)
             capacity := b.capacity }

/-! ## Latency percentile (calculate_latency_percentile, uringblk_main.c:772-801)

The C walks `bucket_count` buckets keeping a running total and returns
`i * 10` at the first bucket where the running total reaches
`(total_ops * percentile) / 100` (integer, i.e. floor, division), falling
back to `(bucket_count - 1) * 10`; it returns 0 when there are no samples.
We model the bucket array as a `List Nat` (so `bucket_count` is the list
length). -/

/-- The `for` loop of `calculate_latency_percentile`: `i` is the index of
the head of `bs` in the original array, `run` the running total so far. -/
def percentileLoop : List Nat → Nat → Nat → Nat → Option Nat
  | [], _, _, _ => none
  | b :: rest, i, run, target =>
    if target ≤ run + b then some (i * 10)
    else percentileLoop rest (i + 1) (run + b) target

/-- `calculate_latency_percentile` (uringblk_main.c:772-801). -/
def calculate_latency_percentile (buckets : List Nat) (percentile : Nat) :
    Nat :=
  let total := buckets.sum
  if total = 0 then 0
  else
    match percentileLoop buckets 0 0 ((total * percentile) / 100) with
    | some v => v
    | none => (buckets.length - 1) * 10

/-- The percentile rule as the spec states it, for comparison with the
code: identical walk, but the target is `ceil(total * percentile / 100)`
rather than the floor the code computes. -/
def spec_percentile_ceil (buckets : List Nat) (percentile : Nat) : Nat :=
  let total := buckets.sum
  if total = 0 then 0
  else
    match percentileLoop buckets 0 0 ((total * percentile + 99) / 100) with
    | some v => v
    | none => (buckets.length - 1) * 10

/-! ## Admin command protocol (uringblk_main.c:528-855)

Per-device state read or written by the admin handlers.  `latencyBuckets`
is the 32-entry `u32` histogram (`dev->latency_buckets`) and `adminLocked`
models whether `dev->admin_mutex` is currently held by another thread at
the time the command is issued. -/

structure Device where
  features : Nat
  stats : UringblkStats
  latencyBuckets : List Nat
  model : String
  firmware : String
  nrHwQueues : Nat
  queueDepth : Nat
  capacity : Nat
  adminLocked : Bool
  deriving Repr, DecidableEq

/-! Response-structure sizes in bytes, computed from the packed layouts in
uringblk_driver.h (no implicit padding). -/

/-- `sizeof(struct uringblk_identify)`: 40 + 16 + 6·4 + 2·8 + 7·4 + 8. -/
def sizeof_uringblk_identify : Nat := 120

/-- `sizeof(struct uringblk_limits)`: 10·4 + 8. -/
def sizeof_uringblk_limits : Nat := 48

/-- `sizeof(dev->features)`: one `u64`. -/
def sizeof_features : Nat := 8

/-- `sizeof(struct uringblk_geometry)`: 8 + 4 + 4 + 2 + 1 + 1. -/
def sizeof_uringblk_geometry : Nat := 20

/-- `sizeof(struct uringblk_stats)`: 11·8 + 4·4. -/
def sizeof_uringblk_stats : Nat := 104

/-- `struct uringblk_identify` (uringblk_driver.h:57-73). -/
structure IdentifyResp where
  model : String
  firmware : String
  logical_block_size : Nat
  physical_block_size : Nat
  capacity_sectors : Nat
  features_bitmap : Nat
  queue_count : Nat
  queue_depth : Nat
  max_segments : Nat
  max_segment_size : Nat
  dma_alignment : Nat
  io_min : Nat
  io_opt : Nat
  discard_granularity : Nat
  discard_max_bytes : Nat
  deriving Repr, DecidableEq

/-- `struct uringblk_limits` (uringblk_driver.h:76-88). -/
structure LimitsResp where
  max_hw_sectors_kb : Nat
  max_sectors_kb : Nat
  nr_hw_queues : Nat
  queue_depth : Nat
  max_segments : Nat
  max_segment_size : Nat
  dma_alignment : Nat
  io_min : Nat
  io_opt : Nat
  discard_granularity : Nat
  discard_max_bytes : Nat
  deriving Repr, DecidableEq

/-- `struct uringblk_geometry` (uringblk_driver.h:100-107).  `cylinders`
is a `u16`, so the C assignment truncates modulo `2 ^ 16`. -/
structure GeometryResp where
  capacity_sectors : Nat
  logical_block_size : Nat
  physical_block_size : Nat
  cylinders : Nat
  heads : Nat
  sectors_per_track : Nat
  deriving Repr, DecidableEq

/-- `uringblk_cmd_identify` (uringblk_main.c:688-714).  `lbs` is the
module parameter `uringblk_logical_block_size`.  The `strncpy` bound
(39/15 bytes) is immaterial because the device strings already fit their
fields. -/
def uringblk_cmd_identify (lbs : Nat) (dev : Device) (len : Nat) :
    Int × Option IdentifyResp :=
  if len < sizeof_uringblk_identify then (-EINVAL, none)
  else
    ((sizeof_uringblk_identify : Int),
      some { model := dev.model
             firmware := dev.firmware
             logical_block_size := lbs
             physical_block_size := lbs
             capacity_sectors := dev.capacity / lbs
             features_bitmap := dev.features
             queue_count := dev.nrHwQueues
             queue_depth := dev.queueDepth
             max_segments := 128
             max_segment_size := 2 ^ 20
             dma_alignment := 4096
             io_min := lbs
             io_opt := 64 * 1024
             discard_granularity := 0
             discard_max_bytes := 0 })

/-- `uringblk_cmd_get_limits` (uringblk_main.c:716-738). -/
def uringblk_cmd_get_limits (lbs : Nat) (dev : Device) (len : Nat) :
    Int × Option LimitsResp :=
  if len < sizeof_uringblk_limits then (-EINVAL, none)
  else
    ((sizeof_uringblk_limits : Int),
      some { max_hw_sectors_kb := 4096
             max_sectors_kb := 4096
             nr_hw_queues := dev.nrHwQueues
             queue_depth := dev.queueDepth
             max_segments := 128
             max_segment_size := 2 ^ 20
             dma_alignment := 4096
             io_min := lbs
             io_opt := 64 * 1024
             discard_granularity := 0
             discard_max_bytes := 0 })

/-- `uringblk_cmd_get_features` (uringblk_main.c:740-749). -/
def uringblk_cmd_get_features (dev : Device) (len : Nat) :
    Int × Option Nat :=
  if len < sizeof_features then (-EINVAL, none)
  else ((sizeof_features : Int), some dev.features)

/-- `uringblk_cmd_get_geometry` (uringblk_main.c:751-770). -/
def uringblk_cmd_get_geometry (lbs : Nat) (dev : Device) (len : Nat) :
    Int × Option GeometryResp :=
  if len < sizeof_uringblk_geometry then (-EINVAL, none)
  else
    ((sizeof_uringblk_geometry : Int),
      some { capacity_sectors := dev.capacity / lbs
             logical_block_size := lbs
             physical_block_size := lbs
             cylinders := (dev.capacity / lbs / (16 * 63)) % 2 ^ 16
             heads := 16
             sectors_per_track := 63 })

/-- `uringblk_cmd_get_stats` (uringblk_main.c:803-831): snapshots the
counters, then overwrites the four percentile fields, all computed from
the single `latency_buckets` histogram. -/
def uringblk_cmd_get_stats (dev : Device) (len : Nat) :
    Int × Option UringblkStats :=
  if len < sizeof_uringblk_stats then (-EINVAL, none)
  else
    ((sizeof_uringblk_stats : Int),
      some { dev.stats with
             p50_read_latency_us :=
               calculate_latency_percentile dev.latencyBuckets 50
             p99_read_latency_us :=
               calculate_latency_percentile dev.latencyBuckets 99
             p50_write_latency_us :=
               calculate_latency_percentile dev.latencyBuckets 50
             p99_write_latency_us :=
               calculate_latency_percentile dev.latencyBuckets 99 })

/-- The supported-feature mask of `uringblk_cmd_set_features`
(uringblk_main.c:844-846): WRITE_CACHE(1) | FUA(2) | FLUSH(4) |
DISCARD(8) | WRITE_ZEROES(16) | POLLING(64) = 95.  ZONED(32) is absent. -/
def supported_features : Nat := 95

/-- `uringblk_cmd_set_features` (uringblk_main.c:833-855).  `userFeatures`
is the `u64` read from the caller's buffer; `~supported_features` on a
`u64` is `2 ^ 64 - 1 - supported_features`.  Returns the `int` result and
the device's feature bitmap afterwards. -/
def uringblk_cmd_set_features (devFeatures userFeatures len : Nat) :
    Int × Nat :=
  if len < sizeof_features then (-EINVAL, devFeatures)
  else if userFeatures &&& (2 ^ 64 - 1 - supported_features) ≠ 0 then
    (-EINVAL, devFeatures)
  else (0, userFeatures)

/-! ### The URING_CMD dispatcher (uringblk_uring_cmd, uringblk_main.c:557-639)

The kernel decodes the 16-byte `struct uringblk_uring_cmd` from
`sqe->cmd`; its fields are below.  `userMem` models the `u64` readable at
`ucmd->addr` (consumed only by SET_FEATURES). -/

/-- `struct uringblk_uring_cmd` (uringblk_main.c:532-537): the 16 bytes
the kernel actually reads.  Note it carries no ABI-version field. -/
structure UringCmd where
  opcode : Nat
  flags : Nat
  len : Nat
  addr : Nat
  deriving Repr, DecidableEq

/-- What a handler wrote to the caller-visible buffer, if anything. -/
inductive AdminResponse
  | identify (r : IdentifyResp)
  | limits (r : LimitsResp)
  | features (f : Nat)
  | geometry (r : GeometryResp)
  | stats (r : UringblkStats)
  deriving Repr, DecidableEq

/-- Observable outcome of one `uringblk_uring_cmd` invocation:
`ret` is the function's immediate return value; `pduResult` the value
later delivered through `io_uring_cmd_done` when the command was queued
(`-EIOCBQUEUED`); `dispatched` the opcode whose handler ran, if any;
`lockAcquired` whether `mutex_lock(&dev->admin_mutex)` was executed. -/
structure AdminResult where
  ret : Int
  pduResult : Option Int
  dev : Device
  dispatched : Option Nat
  response : Option AdminResponse
  lockAcquired : Bool
  deriving Repr, DecidableEq

/-- `uringblk_uring_cmd` (uringblk_main.c:557-639), translated check for
check: cancellation, the 4096-byte response cap, the non-blocking
`-EAGAIN` path, mutex acquisition, and the opcode `switch`. -/
def uringblk_uring_cmd (lbs : Nat) (cancel nonblock : Bool)
    (ucmd : UringCmd) (userMem : Nat) (dev : Device) : AdminResult :=
  if cancel then
    ⟨-ECANCELED, none, dev, none, none, false⟩
  else if ucmd.len > 4096 then
    ⟨-EINVAL, none, dev, none, none, false⟩
  else if nonblock && dev.adminLocked then
    ⟨-EAGAIN, none, dev, none, none, false⟩
  else if ucmd.opcode = 1 then
    ⟨-EIOCBQUEUED, some (uringblk_cmd_identify lbs dev ucmd.len).1, dev,
      some 1, (uringblk_cmd_identify lbs dev ucmd.len).2.map .identify, true⟩
  else if ucmd.opcode = 2 then
    ⟨-EIOCBQUEUED, some (uringblk_cmd_get_limits lbs dev ucmd.len).1, dev,
      some 2, (uringblk_cmd_get_limits lbs dev ucmd.len).2.map .limits, true⟩
  else if ucmd.opcode = 3 then
    ⟨-EIOCBQUEUED, some (uringblk_cmd_get_features dev ucmd.len).1, dev,
      some 3, (uringblk_cmd_get_features dev ucmd.len).2.map .features, true⟩
  else if ucmd.opcode = 4 then
    ⟨-EIOCBQUEUED,
      some (uringblk_cmd_set_features dev.features userMem ucmd.len).1,
      { dev with features :=
          (uringblk_cmd_set_features dev.features userMem ucmd.len).2 },
      some 4, none, true⟩
  else if ucmd.opcode = 5 then
    ⟨-EIOCBQUEUED, some (uringblk_cmd_get_geometry lbs dev ucmd.len).1, dev,
      some 5, (uringblk_cmd_get_geometry lbs dev ucmd.len).2.map .geometry,
      true⟩
  else if ucmd.opcode = 6 then
    ⟨-EIOCBQUEUED, some (uringblk_cmd_get_stats dev ucmd.len).1, dev,
      some 6, (uringblk_cmd_get_stats dev ucmd.len).2.map .stats, true⟩
  else
    ⟨-EIOCBQUEUED, some (-EOPNOTSUPP), dev, none, none, true⟩

/-- `struct uringblk_ucmd_hdr` (uringblk_driver.h:47-54 and the UAPI
header): the versioned header userspace clients build and place in their
command buffer (see `uringblk_test.c` and `kvm_uringblk.cc`). -/
structure UringblkUcmdHdr where
  abiMajor : Nat
  abiMinor : Nat
  opcode : Nat
  flags : Nat
  payloadLen : Nat
  deriving Repr, DecidableEq

/-- The admin path as seen by a client that declares an ABI version in a
`uringblk_ucmd_hdr`.  The kernel handler decodes only the 16-byte
`uringblk_uring_cmd` structure and never reads the client header, so the
header does not occur on the right-hand side. -/
def uringblk_uring_cmd_with_hdr (lbs : Nat) (cancel nonblock : Bool)
    (_hdr : UringblkUcmdHdr) (ucmd : UringCmd) (userMem : Nat)
    (dev : Device) : AdminResult :=
  uringblk_uring_cmd lbs cancel nonblock ucmd userMem dev

/-! ## Request dispatcher (uringblk_queue_rq, uringblk_main.c:141-300)

A queued request carries an operation kind (`req_op(rq)`), a starting
sector (`blk_rq_pos`), its total byte count (`blk_rq_bytes`) and its data
segments (the `bio_vec`s that `rq_for_each_segment` iterates, each
modelled as the byte buffer it addresses).  `blk_rq_sectors(rq)` is
`blk_rq_bytes(rq) / 512`. -/

inductive ReqOp
  | read
  | write
  | flush
  | discard
  | drv_in
  | drv_out
  | other
  deriving Repr, DecidableEq

structure Request where
  op : ReqOp
  posSector : Nat
  bytes : Nat
  segments : List (List Nat)
  deriving Repr, DecidableEq

inductive BlkStatus
  | ok
  | ioerr
  | notsupp
  deriving Repr, DecidableEq

/-- The device's active backend: the fully modelled virtual store, or a
real block device of which only the advertised capacity matters here (its
transfers are recorded as emitted calls, not simulated). -/
inductive Backend
  | virt (vb : VirtualBackend)
  | device (capacity : Nat)
  deriving Repr, DecidableEq

def Backend.capacity : Backend → Nat
  | .virt vb => vb.capacity
  | .device c => c

/-- A backend operation invoked by the dispatcher. -/
inductive BackendCall
  | read (pos len : Nat)
  | write (pos : Nat) (data : List Nat)
  | flush
  | discard (pos len : Nat)
  | readAsync (pos len : Nat)
  | writeAsync (pos len : Nat)
  | flushAsync
  deriving Repr, DecidableEq

/-- The statistics switch of `uringblk_queue_rq` (uringblk_main.c:165-193)
for the four data operations; other kinds do not touch the counters. -/
def statsUpdate (s : UringblkStats) (rq : Request) : UringblkStats :=
  match rq.op with
  | .read =>
    { s with read_ops := s.read_ops + 1
             read_sectors := s.read_sectors + rq.bytes / 512
             read_bytes := s.read_bytes + rq.bytes }
  | .write =>
    { s with write_ops := s.write_ops + 1
             write_sectors := s.write_sectors + rq.bytes / 512
             write_bytes := s.write_bytes + rq.bytes }
  | .flush => { s with flush_ops := s.flush_ops + 1 }
  | .discard => { s with discard_ops := s.discard_ops + 1 }
  | _ => s

/-- Observable outcome of one `uringblk_queue_rq` call: the blk-mq return
status (always `BLK_STS_OK` on these paths), the status passed to
`blk_mq_end_request` if the request was completed synchronously, the
statistics and backend afterwards, and the backend operations invoked. -/
structure QueueRqResult where
  ret : BlkStatus
  completed : Option BlkStatus
  stats : UringblkStats
  backend : Backend
  calls : List BackendCall
  deriving Repr, DecidableEq

/-- The virtual-backend segment loop (uringblk_main.c:251-297): clamp each
segment to the device size, apply it synchronously through the backend
ops table, stop at the first error with `BLK_STS_IOERR`. -/
def virtLoop (devSize : Nat) (op : ReqOp) :
    List (List Nat) → Nat → VirtualBackend →
      BlkStatus × VirtualBackend × List BackendCall
  | [], _, vb => (.ok, vb, [])
  | buf :: rest, pos, vb =>
    let len := if pos + buf.length > devSize then devSize - pos
               else buf.length
    match op with
    | .read =>
      match virtual_backend_read vb pos len with
      | .error _ => (.ioerr, vb, [.read pos len])
      | .ok _ =>
        let (st, vb2, calls) := virtLoop devSize op rest (pos + len) vb
        (st, vb2, .read pos len :: calls)
    | .write =>
      match virtual_backend_write vb pos (buf.take len) with
      | .error _ => (.ioerr, vb, [.write pos (buf.take len)])
      | .ok vb1 =>
        let (st, vb2, calls) := virtLoop devSize op rest (pos + len) vb1
        (st, vb2, .write pos (buf.take len) :: calls)
    | .flush =>
      let (st, vb2, calls) := virtLoop devSize op rest (pos + len) vb
      (st, vb2, .flush :: calls)
    | .discard =>
      match virtual_backend_discard vb pos len with
      | .error _ => (.ioerr, vb, [.discard pos len])
      | .ok vb1 =>
        let (st, vb2, calls) := virtLoop devSize op rest (pos + len) vb1
        (st, vb2, .discard pos len :: calls)
    | _ => (.notsupp, vb, [])

/-- The device-backend branch (uringblk_main.c:201-248): only the first
segment is dispatched, asynchronously (allocation and submission failures
are not modelled); discard completes immediately as a no-op success. -/
def devicePath (devSize : Nat) (op : ReqOp) (segments : List (List Nat))
    (pos : Nat) : Option BlkStatus × List BackendCall :=
  match segments with
  | [] => (none, [])
  | buf :: _ =>
    let len := if pos + buf.length > devSize then devSize - pos
               else buf.length
    match op with
    | .read => (none, [.readAsync pos len])
    | .write => (none, [.writeAsync pos len])
    | .flush => (none, [.flushAsync])
    | .discard => (some .ok, [])
    | _ => (some .notsupp, [])

/-- `uringblk_queue_rq` (uringblk_main.c:141-300).  `lbs` is the module
parameter `uringblk_logical_block_size`; the bounds check compares the
byte position `blk_rq_pos(rq) * lbs` and the request's byte count against
the backend capacity before the statistics switch and before any backend
call. -/
def uringblk_queue_rq (lbs : Nat) (stats : UringblkStats)
    (backend : Backend) (rq : Request) : QueueRqResult :=
  let pos := rq.posSector * lbs
  let devSize := backend.capacity
  if pos ≥ devSize ∨ pos + rq.bytes > devSize then
    { ret := .ok, completed := some .ioerr, stats := stats
      backend := backend, calls := [] }
  else if rq.op = .drv_in ∨ rq.op = .drv_out then
    { ret := .ok, completed := some .ok, stats := stats
      backend := backend, calls := [] }
  else if rq.op = .other then
    { ret := .ok, completed := some .notsupp, stats := stats
      backend := backend, calls := [] }
  else
    let stats1 := statsUpdate stats rq
    match backend with
    | .device cap =>
      let (completed, calls) := devicePath devSize rq.op rq.segments pos
      { ret := .ok, completed := completed, stats := stats1
        backend := .device cap, calls := calls }
    | .virt vb =>
      let (st, vb2, calls) := virtLoop devSize rq.op rq.segments pos vb
      { ret := .ok, completed := some st, stats := stats1
        backend := .virt vb2, calls := calls }

/-! # Theorems -/

/-! ### Round-trip lemmas for the virtual backend -/

theorem storeBytes_readback (data buf : List Nat) (pos : Nat)
    (h : pos ≤ data.length) :
    ((storeBytes data pos buf).drop pos).take buf.length = buf := by
  unfold storeBytes
  rw [List.append_assoc, List.drop_left' (by simpa using h),
    List.take_left' rfl]

/-- C2: for the virtual backend, writing `buf` at offset `pos` and then
reading `buf.length` bytes at `pos` returns exactly the bytes written,
for every range with `pos + buf.length ≤ capacity`. -/
theorem claim_C2_write_read_roundtrip (vb : VirtualBackend) (pos : Nat)
    (buf : List Nat) (hinv : vb.data.length = vb.capacity)
    (hb : pos + buf.length ≤ vb.capacity) :
    ∃ vb2, virtual_backend_write vb pos buf = Except.ok vb2 ∧
      virtual_backend_read vb2 pos buf.length = Except.ok buf := by
  have hw : ¬ pos + buf.length > vb.capacity := not_lt.mpr hb
  refine ⟨_, by rw [virtual_backend_write, if_neg hw], ?_⟩
  rw [virtual_backend_read]
  simp only [if_neg hw]
  have hpos : pos ≤ vb.data.length := by omega
  rw [storeBytes_readback vb.data buf pos hpos]

/-- C6: for the virtual backend, after discarding `[pos, pos + len)` a
read of that range returns all-zero bytes, for every range with
`pos + len ≤ capacity`. -/
theorem claim_C6_discard_reads_zero (vb : VirtualBackend) (pos len : Nat)
    (hinv : vb.data.length = vb.capacity)
    (hb : pos + len ≤ vb.capacity) :
    ∃ vb2, virtual_backend_discard vb pos len = Except.ok vb2 ∧
      virtual_backend_read vb2 pos len = Except.ok (List.replicate len 0) := by
  have hw : ¬ pos + len > vb.capacity := not_lt.mpr hb
  refine ⟨_, by rw [virtual_backend_discard, if_neg hw], ?_⟩
  rw [virtual_backend_read]
  simp only [if_neg hw]
  have hpos : pos ≤ vb.data.length := by omega
  have := storeBytes_readback vb.data (List.replicate len 0) pos hpos
  simpa using this


/-- What the loop computes: either the least `k` whose cumulative prefix
sum reaches the target (returning `(i + k) * 10`), or `none` when no
prefix reaches it. -/
theorem percentileLoop_spec (bs : List Nat) (i run target : Nat) :
    (∃ k, k < bs.length ∧
      percentileLoop bs i run target = some ((i + k) * 10) ∧
      target ≤ run + (bs.take (k + 1)).sum ∧
      ∀ j, j < k → run + (bs.take (j + 1)).sum < target)
    ∨ (percentileLoop bs i run target = none ∧
      ∀ j, j < bs.length → run + (bs.take (j + 1)).sum < target) := by
  induction bs generalizing i run with
  | nil =>
    right
    exact ⟨rfl, fun j hj => absurd hj (by simp)⟩
  | cons b rest ih =>
    by_cases hb : target ≤ run + b
    · left
      refine ⟨0, by simp, ?_, by simpa using hb, fun j hj => absurd hj (by omega)⟩
      simp [percentileLoop, hb]
    · have hloop : percentileLoop (b :: rest) i run target
          = percentileLoop rest (i + 1) (run + b) target := by
        simp [percentileLoop, hb]
      rcases ih (i + 1) (run + b) with ⟨k, hk, heq, hge, hlt⟩ | ⟨heq, hall⟩
      · left
        refine ⟨k + 1, by simpa using Nat.succ_lt_succ hk, ?_, ?_, ?_⟩
        · rw [hloop, heq]
          ring_nf
        · simpa [List.take_succ_cons, add_assoc] using hge
        · intro j hj
          match j with
          | 0 => simpa using lt_of_not_le hb
          | j' + 1 =>
            have := hlt j' (by omega)
            simpa [List.take_succ_cons, add_assoc] using this
      · right
        refine ⟨by rw [hloop, heq], fun j hj => ?_⟩
        match j with
        | 0 => simpa using lt_of_not_le hb
        | j' + 1 =>
          have := hall j' (by simpa using Nat.lt_of_succ_lt_succ hj)
          simpa [List.take_succ_cons, add_assoc] using this

/-- Main characterization used by the amended C5: for `percentile ≤ 100`
the result is 0 when there are no samples, and otherwise it is `i * 10`
for the least index `i` whose cumulative count reaches the floor target
`(total * percentile) / 100`. -/
theorem calculate_latency_percentile_eq (buckets : List Nat)
    (percentile : Nat) (hp : percentile ≤ 100) :
    (buckets.sum = 0 → calculate_latency_percentile buckets percentile = 0) ∧
    (buckets.sum ≠ 0 → ∃ i, i < buckets.length ∧
      calculate_latency_percentile buckets percentile = i * 10 ∧
      (buckets.sum * percentile) / 100 ≤ (buckets.take (i + 1)).sum ∧
      ∀ j, j < i →
        (buckets.take (j + 1)).sum < (buckets.sum * percentile) / 100) := by
  constructor
  · intro h
    simp [calculate_latency_percentile, h]
  · intro h
    have hne : buckets ≠ [] := by
      intro hnil
      exact h (by simp [hnil])
    have hlen : 0 < buckets.length := List.length_pos.mpr hne
    have htarget : (buckets.sum * percentile) / 100 ≤ buckets.sum := by
      calc (buckets.sum * percentile) / 100
          ≤ (buckets.sum * 100) / 100 :=
            Nat.div_le_div_right (Nat.mul_le_mul_left _ hp)
        _ = buckets.sum := Nat.mul_div_cancel buckets.sum (by norm_num)
    rcases percentileLoop_spec buckets 0 0 ((buckets.sum * percentile) / 100)
      with ⟨k, hk, heq, hge, hlt⟩ | ⟨_, hall⟩
    · refine ⟨k, hk, ?_, by simpa using hge, fun j hj => by simpa using hlt j hj⟩
      simp only [calculate_latency_percentile, if_neg h, heq]
      ring
    · exfalso
      have := hall (buckets.length - 1) (by omega)
      rw [show buckets.length - 1 + 1 = buckets.length from by omega,
        List.take_length] at this
      omega


/-! ### Bridge between the code's mask test and "subset of the mask" -/

theorem testBit_high_false {f i : Nat} (hf : f < 2 ^ 64) (hi : 64 ≤ i) :
    f.testBit i = false :=
  Nat.testBit_lt_two_pow (lt_of_lt_of_le hf (Nat.pow_le_pow_right (by norm_num) hi))

/-- `f & ~95 == 0` on `u64` values is exactly "every set bit of `f` lies
inside the mask", i.e. `f & 95 == f`. -/
theorem land_complement_eq_zero_iff (f : Nat) (hf : f < 2 ^ 64) :
    f &&& (2 ^ 64 - 1 - supported_features) = 0 ↔
      f &&& supported_features = f := by
  have hxor : (2 : Nat) ^ 64 - 1 - supported_features
      = ((2 : Nat) ^ 64 - 1) ^^^ supported_features := by decide
  constructor
  · intro hz
    apply Nat.eq_of_testBit_eq
    intro i
    rw [Nat.testBit_land]
    cases hfi : f.testBit i with
    | false => simp
    | true =>
      simp only [Bool.true_and]
      by_contra h95
      have h95f : Nat.testBit supported_features i = false := by
        cases hb : Nat.testBit supported_features i
        · rfl
        · exact absurd hb h95
      have hi64 : i < 64 := by
        by_contra hge
        have := testBit_high_false hf (le_of_not_lt hge)
        rw [this] at hfi
        exact Bool.false_ne_true hfi
      have hc : Nat.testBit (2 ^ 64 - 1 - supported_features) i = true := by
        rw [hxor, Nat.testBit_xor, Nat.testBit_two_pow_sub_one, h95f]
        simp [hi64]
      have : Nat.testBit (f &&& (2 ^ 64 - 1 - supported_features)) i
          = true := by
        rw [Nat.testBit_land, hfi, hc]
        rfl
      rw [hz, Nat.zero_testBit] at this
      exact Bool.false_ne_true this
  · intro hs
    apply Nat.eq_of_testBit_eq
    intro i
    rw [Nat.testBit_land, Nat.zero_testBit]
    cases hfi : f.testBit i with
    | false => simp
    | true =>
      simp only [Bool.true_and]
      have h95 : Nat.testBit supported_features i = true := by
        have := congrArg (fun n => Nat.testBit n i) hs
        simp only [Nat.testBit_land, hfi, Bool.and_true] at this
        exact this
      have hi7 : i < 7 := by
        by_contra hge
        have : Nat.testBit supported_features i = false := by
          apply Nat.testBit_lt_two_pow
          calc supported_features < 2 ^ 7 := by decide
            _ ≤ 2 ^ i := Nat.pow_le_pow_right (by norm_num) (le_of_not_lt hge)
        rw [this] at h95
        exact Bool.false_ne_true h95
      rw [hxor, Nat.testBit_xor, Nat.testBit_two_pow_sub_one, h95]
      simp [show i < 64 by omega]

/-! ## Concrete sample values used by witnesses and counterexamples -/

/-- All-zero statistics, as at device creation (`kzalloc`). -/
def stats0 : UringblkStats := ⟨0, 0, 0, 0, 0, 0, 0, 0, 0, 0, 0, 0, 0, 0, 0⟩

/-- A small virtual backend: 8 zero bytes. -/
def vb0 : VirtualBackend := ⟨List.replicate 8 0, 8⟩

/-- A freshly initialized virtual-backend device with the default feature
bitmap (95) and an empty histogram. -/
def dev0 : Device :=
  { features := 95
    stats := stats0
    latencyBuckets := List.replicate 32 0
    model := "uringblk Virtual Device"
    firmware := "v1.0.0"
    nrHwQueues := 4
    queueDepth := 1024
    capacity := 1073741824
    adminLocked := false }

/-- `dev0` while another thread holds the admin mutex. -/
def dev0locked : Device := { dev0 with adminLocked := true }

/-! ## Claim theorems -/

/-- C1: a queued read/write/flush/discard whose byte range violates the
capacity bound (`pos >= capacity` or `pos + bytes > capacity`, with
`pos = blk_rq_pos * logical_block_size`) is completed with `BLK_STS_IOERR`
before any backend call, with the statistics and backend state unchanged
and no backend operation invoked. -/
theorem claim_C1_bounds_reject (lbs : Nat) (stats : UringblkStats)
    (backend : Backend) (rq : Request)
    (_hop : rq.op = .read ∨ rq.op = .write ∨ rq.op = .flush ∨
      rq.op = .discard)
    (hb : rq.posSector * lbs ≥ backend.capacity ∨
      rq.posSector * lbs + rq.bytes > backend.capacity) :
    uringblk_queue_rq lbs stats backend rq =
      { ret := .ok, completed := some .ioerr, stats := stats
        backend := backend, calls := [] } := by
  simp only [uringblk_queue_rq]
  rw [if_pos hb]

/-- Witness for C1: a one-sector read at sector 1 of an 8-byte device. -/
theorem claim_C1_bounds_reject_witness :
    ((Request.mk .read 1 512 [] |>.op) = ReqOp.read ∨
      (Request.mk .read 1 512 [] |>.op) = ReqOp.write ∨
      (Request.mk .read 1 512 [] |>.op) = ReqOp.flush ∨
      (Request.mk .read 1 512 [] |>.op) = ReqOp.discard) ∧
    uringblk_queue_rq 512 stats0 (Backend.virt vb0) (Request.mk .read 1 512 []) =
      { ret := .ok, completed := some .ioerr, stats := stats0
        backend := Backend.virt vb0, calls := [] } :=
  ⟨Or.inl rfl,
    claim_C1_bounds_reject 512 stats0 (Backend.virt vb0)
      (Request.mk .read 1 512 []) (Or.inl rfl) (by decide)⟩

/-- Witness for C2: write `[7, 8]` at offset 1 of `vb0`, read it back. -/
theorem claim_C2_write_read_roundtrip_witness :
    (vb0.data.length = vb0.capacity ∧
      1 + ([7, 8] : List Nat).length ≤ vb0.capacity) ∧
    (∃ vb2, virtual_backend_write vb0 1 [7, 8] = Except.ok vb2 ∧
      virtual_backend_read vb2 1 ([7, 8] : List Nat).length =
        Except.ok [7, 8]) :=
  ⟨⟨by decide, by decide⟩,
    claim_C2_write_read_roundtrip vb0 1 [7, 8] (by decide) (by decide)⟩

/-- C3: SET_FEATURES with any requested bit outside the supported mask
{WRITE_CACHE, FUA, FLUSH, DISCARD, WRITE_ZEROES, POLLING} fails with
`-EINVAL` leaving the bitmap unchanged; any subset of the mask replaces
the bitmap by exactly the requested value. -/
theorem claim_C3_set_features (devF f len : Nat)
    (hlen : sizeof_features ≤ len) (hf : f < 2 ^ 64) :
    (f &&& supported_features ≠ f →
      uringblk_cmd_set_features devF f len = (-EINVAL, devF)) ∧
    (f &&& supported_features = f →
      uringblk_cmd_set_features devF f len = (0, f)) := by
  have hnl : ¬ len < sizeof_features := not_lt.mpr hlen
  constructor
  · intro hout
    have hnz : f &&& (2 ^ 64 - 1 - supported_features) ≠ 0 := fun h0 =>
      hout ((land_complement_eq_zero_iff f hf).mp h0)
    unfold uringblk_cmd_set_features
    rw [if_neg hnl, if_pos hnz]
  · intro hin
    have hz : f &&& (2 ^ 64 - 1 - supported_features) = 0 :=
      (land_complement_eq_zero_iff f hf).mpr hin
    unfold uringblk_cmd_set_features
    rw [if_neg hnl, if_neg (not_not_intro hz)]

/-- Witness for C3: bit 5 (ZONED) is rejected and the bitmap 95 itself is
accepted verbatim. -/
theorem claim_C3_set_features_witness :
    (sizeof_features ≤ 8 ∧ (32 : Nat) < 2 ^ 64 ∧ (95 : Nat) < 2 ^ 64) ∧
    (((32 : Nat) &&& supported_features ≠ 32 →
      uringblk_cmd_set_features 95 32 8 = (-EINVAL, 95)) ∧
     ((32 : Nat) &&& supported_features = 32 →
      uringblk_cmd_set_features 95 32 8 = (0, 32))) ∧
    (((95 : Nat) &&& supported_features ≠ 95 →
      uringblk_cmd_set_features 0 95 8 = (-EINVAL, 0)) ∧
     ((95 : Nat) &&& supported_features = 95 →
      uringblk_cmd_set_features 0 95 8 = (0, 95))) :=
  ⟨⟨by decide, by decide, by decide⟩,
    claim_C3_set_features 95 32 8 (by decide) (by decide),
    claim_C3_set_features 0 95 8 (by decide) (by decide)⟩

/-- C4 counterexample: a command whose client header declares
`abi_major = 2` with a valid IDENTIFY opcode is NOT rejected: the
IDENTIFY handler runs and the command completes with the full response
size, because the kernel handler never reads the declared ABI version. -/
theorem claim_C4_counterexample :
    (uringblk_uring_cmd_with_hdr 512 false false ⟨2, 0, 1, 0, 120⟩
      ⟨1, 0, 120, 0⟩ 0 dev0).dispatched = some 1 ∧
    (uringblk_uring_cmd_with_hdr 512 false false ⟨2, 0, 1, 0, 120⟩
      ⟨1, 0, 120, 0⟩ 0 dev0).pduResult = some 120 := by
  exact ⟨rfl, rfl⟩

/-- C4 (amended): the admin path performs no ABI-version validation at
all.  The result is independent of the client-declared header, and a
well-formed command is dispatched to its opcode handler regardless of the
`abi_major` it declared. -/
theorem claim_C4_no_abi_check (lbs : Nat) (cancel nonblock : Bool)
    (hdr hdr2 : UringblkUcmdHdr) (ucmd : UringCmd) (userMem : Nat)
    (dev : Device) :
    (uringblk_uring_cmd_with_hdr lbs cancel nonblock hdr ucmd userMem dev =
      uringblk_uring_cmd_with_hdr lbs cancel nonblock hdr2 ucmd userMem dev) ∧
    (cancel = false → ucmd.len ≤ 4096 →
      (nonblock && dev.adminLocked) = false → ucmd.opcode = 1 →
      (uringblk_uring_cmd_with_hdr lbs cancel nonblock hdr ucmd userMem
        dev).dispatched = some 1) := by
  refine ⟨rfl, ?_⟩
  intro hc hlen hnb hop
  subst hc
  simp [uringblk_uring_cmd_with_hdr, uringblk_uring_cmd, not_lt.mpr hlen,
    hnb, hop]

/-- Witness for C4 (amended): two headers declaring ABI majors 1 and 7
produce identical results, and the IDENTIFY command is dispatched. -/
theorem claim_C4_no_abi_check_witness :
    ((uringblk_uring_cmd_with_hdr 512 false false ⟨1, 0, 1, 0, 120⟩
        ⟨1, 0, 120, 0⟩ 0 dev0 =
      uringblk_uring_cmd_with_hdr 512 false false ⟨7, 0, 1, 0, 120⟩
        ⟨1, 0, 120, 0⟩ 0 dev0) ∧
     (false = false → (120 : Nat) ≤ 4096 →
      (false && dev0.adminLocked) = false → (1 : Nat) = 1 →
      (uringblk_uring_cmd_with_hdr 512 false false ⟨1, 0, 1, 0, 120⟩
        ⟨1, 0, 120, 0⟩ 0 dev0).dispatched = some 1)) :=
  claim_C4_no_abi_check 512 false false ⟨1, 0, 1, 0, 120⟩ ⟨7, 0, 1, 0, 120⟩
    ⟨1, 0, 120, 0⟩ 0 dev0

/-- C5 counterexample: for buckets `[1, 2]` at p50 the code returns 0
(floor target `3 * 50 / 100 = 1` is reached at bucket 0) whereas the
claimed ceil rule (`ceil(3 * 50 / 100) = 2`) is first reached at bucket 1
and so demands 10. -/
theorem claim_C5_counterexample :
    calculate_latency_percentile [1, 2] 50 = 0 ∧
    spec_percentile_ceil [1, 2] 50 = 10 ∧
    calculate_latency_percentile [1, 2] 50 ≠ spec_percentile_ceil [1, 2] 50 :=
  ⟨by decide, by decide, by decide⟩

/-- C5 (amended): the percentile walk returns, for a nonempty sample set,
the 10µs-scaled least bucket index whose cumulative count reaches the
FLOOR target `(total * percentile) / 100` (so the target can be 0 and the
walk can stop at bucket 0); it returns 0 with no samples; and on the
spec's example `[0, 0, 5, 3, 2]` p50 is 20µs while empty buckets give 0. -/
theorem claim_C5_percentile_floor_walk :
    (∀ buckets percentile, percentile ≤ 100 →
      (buckets.sum = 0 →
        calculate_latency_percentile buckets percentile = 0) ∧
      (buckets.sum ≠ 0 → ∃ i, i < buckets.length ∧
        calculate_latency_percentile buckets percentile = i * 10 ∧
        (buckets.sum * percentile) / 100 ≤ (buckets.take (i + 1)).sum ∧
        ∀ j, j < i →
          (buckets.take (j + 1)).sum < (buckets.sum * percentile) / 100)) ∧
    calculate_latency_percentile [0, 0, 5, 3, 2] 50 = 20 ∧
    calculate_latency_percentile (List.replicate 32 0) 50 = 0 ∧
    calculate_latency_percentile (List.replicate 32 0) 99 = 0 :=
  ⟨calculate_latency_percentile_eq, by decide, by decide, by decide⟩

/-- Witness for C5 (amended): instantiated on the spec's example buckets
at p50. -/
theorem claim_C5_percentile_floor_walk_witness :
    (50 : Nat) ≤ 100 ∧
    ((([0, 0, 5, 3, 2] : List Nat).sum = 0 →
      calculate_latency_percentile [0, 0, 5, 3, 2] 50 = 0) ∧
     (([0, 0, 5, 3, 2] : List Nat).sum ≠ 0 → ∃ i,
        i < ([0, 0, 5, 3, 2] : List Nat).length ∧
        calculate_latency_percentile [0, 0, 5, 3, 2] 50 = i * 10 ∧
        (([0, 0, 5, 3, 2] : List Nat).sum * 50) / 100 ≤
          (([0, 0, 5, 3, 2] : List Nat).take (i + 1)).sum ∧
        ∀ j, j < i → (([0, 0, 5, 3, 2] : List Nat).take (j + 1)).sum <
          (([0, 0, 5, 3, 2] : List Nat).sum * 50) / 100)) :=
  ⟨by decide, claim_C5_percentile_floor_walk.1 [0, 0, 5, 3, 2] 50 (by decide)⟩

/-- Witness for C6: discard `[2, 2 + 3)` of `vb0`, read back three zero
bytes. -/
theorem claim_C6_discard_reads_zero_witness :
    (vb0.data.length = vb0.capacity ∧ 2 + 3 ≤ vb0.capacity) ∧
    (∃ vb2, virtual_backend_discard vb0 2 3 = Except.ok vb2 ∧
      virtual_backend_read vb2 2 3 = Except.ok (List.replicate 3 0)) :=
  ⟨⟨by decide, by decide⟩,
    claim_C6_discard_reads_zero vb0 2 3 (by decide) (by decide)⟩

/-- C7: an admin command with any opcode outside the six implemented ones
(in particular the reserved ZONE_MGMT = 0x10 and FIRMWARE_OP = 0x20)
completes with `-EOPNOTSUPP`, with no opcode handler executed and the
device unchanged. -/
theorem claim_C7_reserved_opcodes (lbs : Nat) (cancel nonblock : Bool)
    (ucmd : UringCmd) (userMem : Nat) (dev : Device)
    (hc : cancel = false) (hlen : ucmd.len ≤ 4096)
    (hnb : (nonblock && dev.adminLocked) = false)
    (hop : ucmd.opcode ≠ 1 ∧ ucmd.opcode ≠ 2 ∧ ucmd.opcode ≠ 3 ∧
      ucmd.opcode ≠ 4 ∧ ucmd.opcode ≠ 5 ∧ ucmd.opcode ≠ 6) :
    uringblk_uring_cmd lbs cancel nonblock ucmd userMem dev =
      ⟨-EIOCBQUEUED, some (-EOPNOTSUPP), dev, none, none, true⟩ := by
  obtain ⟨h1, h2, h3, h4, h5, h6⟩ := hop
  subst hc
  simp [uringblk_uring_cmd, not_lt.mpr hlen, hnb, h1, h2, h3, h4, h5, h6]

/-- Witness for C7: ZONE_MGMT (0x10) and FIRMWARE_OP (0x20) on `dev0`. -/
theorem claim_C7_reserved_opcodes_witness :
    uringblk_uring_cmd 512 false false ⟨16, 0, 120, 0⟩ 0 dev0 =
      ⟨-EIOCBQUEUED, some (-EOPNOTSUPP), dev0, none, none, true⟩ ∧
    uringblk_uring_cmd 512 false false ⟨32, 0, 120, 0⟩ 0 dev0 =
      ⟨-EIOCBQUEUED, some (-EOPNOTSUPP), dev0, none, none, true⟩ :=
  ⟨claim_C7_reserved_opcodes 512 false false ⟨16, 0, 120, 0⟩ 0 dev0 rfl
      (by decide) (by decide) (by decide),
   claim_C7_reserved_opcodes 512 false false ⟨32, 0, 120, 0⟩ 0 dev0 rfl
      (by decide) (by decide) (by decide)⟩

/-- Fixed response size per read-style opcode, from the packed structs. -/
def admin_resp_size (op : Nat) : Nat :=
  if op = 1 then sizeof_uringblk_identify
  else if op = 2 then sizeof_uringblk_limits
  else if op = 3 then sizeof_features
  else if op = 5 then sizeof_uringblk_geometry
  else if op = 6 then sizeof_uringblk_stats
  else 0

/-- C8: for IDENTIFY, GET_LIMITS, GET_FEATURES, GET_GEOMETRY and
GET_STATS, a declared buffer length above 4096 bytes or below the
opcode's fixed response size is rejected with `-EINVAL` and no response
is written; otherwise the handler returns exactly the fixed response
size and writes a response. -/
theorem claim_C8_resp_len_validation (lbs : Nat) (cancel nonblock : Bool)
    (ucmd : UringCmd) (userMem : Nat) (dev : Device)
    (hc : cancel = false) (hnb : (nonblock && dev.adminLocked) = false)
    (hop : ucmd.opcode = 1 ∨ ucmd.opcode = 2 ∨ ucmd.opcode = 3 ∨
      ucmd.opcode = 5 ∨ ucmd.opcode = 6) :
    (ucmd.len > 4096 →
      uringblk_uring_cmd lbs cancel nonblock ucmd userMem dev =
        ⟨-EINVAL, none, dev, none, none, false⟩) ∧
    (ucmd.len ≤ 4096 → ucmd.len < admin_resp_size ucmd.opcode →
      (uringblk_uring_cmd lbs cancel nonblock ucmd userMem dev).pduResult =
        some (-EINVAL) ∧
      (uringblk_uring_cmd lbs cancel nonblock ucmd userMem dev).response =
        none ∧
      (uringblk_uring_cmd lbs cancel nonblock ucmd userMem dev).dev = dev) ∧
    (ucmd.len ≤ 4096 → admin_resp_size ucmd.opcode ≤ ucmd.len →
      (uringblk_uring_cmd lbs cancel nonblock ucmd userMem dev).pduResult =
        some ((admin_resp_size ucmd.opcode : Nat) : Int) ∧
      ((uringblk_uring_cmd lbs cancel nonblock ucmd userMem
        dev).response).isSome = true) := by
  subst hc
  refine ⟨?_, ?_, ?_⟩
  · intro hbig
    simp [uringblk_uring_cmd, hbig]
  · intro hlen hsmall
    rcases hop with h | h | h | h | h <;>
      rw [h] at hsmall <;>
      simp [admin_resp_size, sizeof_uringblk_identify,
        sizeof_uringblk_limits, sizeof_features, sizeof_uringblk_geometry,
        sizeof_uringblk_stats] at hsmall <;>
      simp [uringblk_uring_cmd, not_lt.mpr hlen, hnb, h,
        uringblk_cmd_identify, uringblk_cmd_get_limits,
        uringblk_cmd_get_features, uringblk_cmd_get_geometry,
        uringblk_cmd_get_stats, hsmall, sizeof_uringblk_identify,
        sizeof_uringblk_limits, sizeof_features, sizeof_uringblk_geometry,
        sizeof_uringblk_stats]
  · intro hlen hbig
    rcases hop with h | h | h | h | h <;>
      rw [h] at hbig <;>
      simp [admin_resp_size, sizeof_uringblk_identify,
        sizeof_uringblk_limits, sizeof_features, sizeof_uringblk_geometry,
        sizeof_uringblk_stats] at hbig <;>
      simp [uringblk_uring_cmd, not_lt.mpr hlen, hnb, h,
        uringblk_cmd_identify, uringblk_cmd_get_limits,
        uringblk_cmd_get_features, uringblk_cmd_get_geometry,
        uringblk_cmd_get_stats, not_lt.mpr hbig, admin_resp_size,
        sizeof_uringblk_identify, sizeof_uringblk_limits, sizeof_features,
        sizeof_uringblk_geometry, sizeof_uringblk_stats]

/-- Witness for C8: IDENTIFY with a 120-byte buffer on `dev0`. -/
theorem claim_C8_resp_len_validation_witness :
    ((120 : Nat) > 4096 →
      uringblk_uring_cmd 512 false false ⟨1, 0, 120, 0⟩ 0 dev0 =
        ⟨-EINVAL, none, dev0, none, none, false⟩) ∧
    ((120 : Nat) ≤ 4096 → (120 : Nat) < admin_resp_size 1 →
      (uringblk_uring_cmd 512 false false ⟨1, 0, 120, 0⟩ 0 dev0).pduResult =
        some (-EINVAL) ∧
      (uringblk_uring_cmd 512 false false ⟨1, 0, 120, 0⟩ 0 dev0).response =
        none ∧
      (uringblk_uring_cmd 512 false false ⟨1, 0, 120, 0⟩ 0 dev0).dev =
        dev0) ∧
    ((120 : Nat) ≤ 4096 → admin_resp_size 1 ≤ 120 →
      (uringblk_uring_cmd 512 false false ⟨1, 0, 120, 0⟩ 0 dev0).pduResult =
        some ((admin_resp_size 1 : Nat) : Int) ∧
      ((uringblk_uring_cmd 512 false false ⟨1, 0, 120, 0⟩ 0
        dev0).response).isSome = true) :=
  claim_C8_resp_len_validation 512 false false ⟨1, 0, 120, 0⟩ 0 dev0 rfl
    (by decide) (Or.inl rfl)

/-- C9: a non-blocking admin command issued while the admin mutex is held
returns `-EAGAIN` immediately: the lock is not acquired, no opcode
handler is dispatched and the device is unchanged. -/
theorem claim_C9_nonblock_eagain (lbs : Nat) (ucmd : UringCmd)
    (userMem : Nat) (dev : Device) (hlen : ucmd.len ≤ 4096)
    (hlock : dev.adminLocked = true) :
    uringblk_uring_cmd lbs false true ucmd userMem dev =
      ⟨-EAGAIN, none, dev, none, none, false⟩ := by
  simp [uringblk_uring_cmd, not_lt.mpr hlen, hlock]

/-- Witness for C9: IDENTIFY issued non-blockingly on a locked device. -/
theorem claim_C9_nonblock_eagain_witness :
    ((120 : Nat) ≤ 4096 ∧ dev0locked.adminLocked = true) ∧
    uringblk_uring_cmd 512 false true ⟨1, 0, 120, 0⟩ 0 dev0locked =
      ⟨-EAGAIN, none, dev0locked, none, none, false⟩ :=
  ⟨⟨by decide, rfl⟩,
    claim_C9_nonblock_eagain 512 ⟨1, 0, 120, 0⟩ 0 dev0locked (by decide) rfl⟩

/-- C10: every successful GET_STATS response has
`p50_read_latency_us = p50_write_latency_us` and
`p99_read_latency_us = p99_write_latency_us`, because all four fields are
computed from the same single latency-bucket histogram snapshot. -/
theorem claim_C10_read_write_percentiles_equal (dev : Device) (len : Nat)
    (h : sizeof_uringblk_stats ≤ len) :
    ∃ r, uringblk_cmd_get_stats dev len =
        ((sizeof_uringblk_stats : Int), some r) ∧
      r.p50_read_latency_us = r.p50_write_latency_us ∧
      r.p99_read_latency_us = r.p99_write_latency_us := by
  have hnl : ¬ len < sizeof_uringblk_stats := not_lt.mpr h
  exact ⟨_, by rw [uringblk_cmd_get_stats, if_neg hnl], rfl, rfl⟩

/-- Witness for C10: GET_STATS on `dev0` with a 104-byte buffer. -/
theorem claim_C10_read_write_percentiles_equal_witness :
    sizeof_uringblk_stats ≤ 104 ∧
    (∃ r, uringblk_cmd_get_stats dev0 104 =
        ((sizeof_uringblk_stats : Int), some r) ∧
      r.p50_read_latency_us = r.p50_write_latency_us ∧
      r.p99_read_latency_us = r.p99_write_latency_us) :=
  ⟨by decide, claim_C10_read_write_percentiles_equal dev0 104 (by decide)⟩

end Uringblk
